import Mathlib

/-!
Verification of the profiling data capture and aggregation engine of the
VulkanProfiler layer (`VkProfilerEXT.cpp` and collaborators).

The C++ code is shallowly embedded: opaque Vulkan handles become `Nat`,
enums become inductives, the concurrent keyed registries become
association lists (iteration order preserved, as in the source's maps),
machine integers become `Nat` with explicit `% 2^32` / `% 2^64` where
overflow matters, and fallible operations return `Option`.
-/

set_option maxRecDepth 10000

/-- Subset of `VkResult` values produced by the embedded functions. -/
inductive VkResult where
  | VK_SUCCESS
  | VK_INCOMPLETE
  | VK_ERROR_VALIDATION_FAILED_EXT
  deriving DecidableEq, Repr

/-- `VkProfilerSyncModeEXT` is a C enum; values outside the two named
constants are representable, so the embedding keeps the raw integer. -/
def VK_PROFILER_SYNC_MODE_PRESENT_EXT : Nat := 0

/-- The submit-wait synchronization policy constant. -/
def VK_PROFILER_SYNC_MODE_SUBMIT_EXT : Nat := 1

/-- Profiler configuration (the fields of `DeviceProfilerConfig` touched by
the embedded operations). -/
structure DeviceProfilerConfig where
  m_Flags : Nat := 0
  m_Mode : Nat := 0
  m_SyncMode : Nat := VK_PROFILER_SYNC_MODE_PRESENT_EXT
  deriving DecidableEq, Repr

/-- `DeviceProfiler::SetSyncMode` (VkProfilerEXT.cpp:501-513): rejects any
value other than the two supported policies with
`VK_ERROR_VALIDATION_FAILED_EXT`, otherwise stores the new mode. Returns
the result code together with the configuration after the call. -/
def SetSyncMode (config : DeviceProfilerConfig) (syncMode : Nat) :
    VkResult × DeviceProfilerConfig :=
  if syncMode ≠ VK_PROFILER_SYNC_MODE_PRESENT_EXT ∧
     syncMode ≠ VK_PROFILER_SYNC_MODE_SUBMIT_EXT then
    (VkResult.VK_ERROR_VALIDATION_FAILED_EXT, config)
  else
    (VkResult.VK_SUCCESS, { config with m_SyncMode := syncMode })

/-- `DeviceProfiler::SetMode` (VkProfilerEXT.cpp:482-488). -/
def SetMode (config : DeviceProfilerConfig) (mode : Nat) :
    VkResult × DeviceProfilerConfig :=
  (VkResult.VK_SUCCESS, { config with m_Mode := mode })

/-- State observed by `vkEnumerateProfilerMetricPropertiesEXT`: whether the
vendor (INTEL) metrics backend is available, and the list of metric property
descriptors it reports (each descriptor is an opaque blob, embedded as `Nat`). -/
structure MetricsApiINTEL where
  isAvailable : Bool
  metricsProperties : List Nat
  deriving DecidableEq, Repr

/-- Result of `vkEnumerateProfilerMetricPropertiesEXT`: the returned
`VkResult`, the value left in `*pProfilerMetricCount`, and the sequence of
property entries copied into the caller's array. -/
structure EnumerateMetricsResult where
  result : VkResult
  profilerMetricCount : Nat
  writtenProperties : List Nat
  deriving DecidableEq, Repr

/-- `vkEnumerateProfilerMetricPropertiesEXT` (VkProfilerEXT.cpp:84-133).
With the backend available: a zero `*pProfilerMetricCount` receives the
available count (`+=`) and nothing is copied; a nonzero count copies
`min(count, available)` entries, subtracts the copied count from
`*pProfilerMetricCount`, and reports `VK_INCOMPLETE` when the buffer was
too small for all available metrics. -/
def vkEnumerateProfilerMetricPropertiesEXT (api : MetricsApiINTEL)
    (profilerMetricCount : Nat) : EnumerateMetricsResult :=
  if api.isAvailable then
    if profilerMetricCount = 0 then
      { result := VkResult.VK_SUCCESS
        profilerMetricCount := profilerMetricCount + api.metricsProperties.length
        writtenProperties := [] }
    else
      let returnedMetricPropertyCount :=
        min profilerMetricCount api.metricsProperties.length
      let hasSufficientSpace :=
        ¬ (returnedMetricPropertyCount < api.metricsProperties.length)
      { result := if hasSufficientSpace then VkResult.VK_SUCCESS
                  else VkResult.VK_INCOMPLETE
        profilerMetricCount := profilerMetricCount - returnedMetricPropertyCount
        writtenProperties := api.metricsProperties.take returnedMetricPropertyCount }
  else
    { result := VkResult.VK_SUCCESS
      profilerMetricCount := profilerMetricCount
      writtenProperties := [] }

/-- `VkFormat`, restricted to the aspect classification the profiler makes:
the named depth/stencil formats are distinguished; every other format is
assumed to be a color format (`GetImageAspectFlagsForFormat`'s default). -/
inductive VkFormat where
  | D16_UNORM
  | D32_SFLOAT
  | D16_UNORM_S8_UINT
  | D24_UNORM_S8_UINT
  | D32_SFLOAT_S8_UINT
  | S8_UINT
  | colorFormat (id : Nat)
  deriving DecidableEq, Repr

/-- `VkImageAspectFlags` as the three aspect bits the profiler inspects. -/
structure VkImageAspectFlags where
  color : Bool := false
  depth : Bool := false
  stencil : Bool := false
  deriving DecidableEq, Repr

/-- `GetImageAspectFlagsForFormat` (VkProfilerEXT.cpp:163-182): color aspect
is assumed except for the depth/stencil formats. -/
def GetImageAspectFlagsForFormat : VkFormat → VkImageAspectFlags
  | VkFormat.D16_UNORM => { depth := true }
  | VkFormat.D32_SFLOAT => { depth := true }
  | VkFormat.D16_UNORM_S8_UINT => { depth := true, stencil := true }
  | VkFormat.D24_UNORM_S8_UINT => { depth := true, stencil := true }
  | VkFormat.D32_SFLOAT_S8_UINT => { depth := true, stencil := true }
  | VkFormat.S8_UINT => { stencil := true }
  | VkFormat.colorFormat _ => { color := true }

/-- `VkAttachmentLoadOp`. -/
inductive VkAttachmentLoadOp where
  | LOAD
  | CLEAR
  | DONT_CARE
  deriving DecidableEq, Repr

/-- The fields of `VkAttachmentDescription` (and `VkAttachmentDescription2`)
read by the clear counting. -/
structure VkAttachmentDescription where
  format : VkFormat
  loadOp : VkAttachmentLoadOp
  stencilLoadOp : VkAttachmentLoadOp
  deriving DecidableEq, Repr

/-- `VK_ATTACHMENT_UNUSED` is `(~0U)`. -/
def VK_ATTACHMENT_UNUSED : Nat := 2 ^ 32 - 1

/-- The fields of `VkAttachmentReference2` read by the resolve counting. -/
structure VkAttachmentReference2 where
  attachment : Nat
  deriving DecidableEq, Repr

/-- `VkResolveModeFlagBits`. -/
inductive VkResolveModeFlagBits where
  | VK_RESOLVE_MODE_NONE
  | VK_RESOLVE_MODE_SAMPLE_ZERO_BIT
  | VK_RESOLVE_MODE_AVERAGE_BIT
  | VK_RESOLVE_MODE_MIN_BIT
  | VK_RESOLVE_MODE_MAX_BIT
  deriving DecidableEq, Repr

/-- `VkSubpassDescriptionDepthStencilResolve` (the extension structure of
the depth-stencil-resolve path). -/
structure VkSubpassDescriptionDepthStencilResolve where
  depthResolveMode : VkResolveModeFlagBits
  stencilResolveMode : VkResolveModeFlagBits
  pDepthStencilResolveAttachment : Option VkAttachmentReference2
  deriving DecidableEq, Repr

/-- One entry of a `VkSubpassDescription2::pNext` chain: either the
depth-stencil-resolve structure or some other extension structure
(identified only by its `sType`, which the profiler skips). -/
inductive SubpassPNextStruct where
  | depthStencilResolve (r : VkSubpassDescriptionDepthStencilResolve)
  | otherStruct (sType : Nat)
  deriving DecidableEq, Repr

/-- The fields of `VkSubpassDescription2` read by the profiler.
`pResolveAttachments` is `none` when the application passed a null pointer;
when present, the Vulkan API guarantees it holds exactly
`colorAttachmentCount` entries, so the list length stands for that count. -/
structure VkSubpassDescription2 where
  pResolveAttachments : Option (List VkAttachmentReference2)
  pNext : List SubpassPNextStruct := []
  deriving DecidableEq, Repr

/-- The per-subpass shadow metadata (`DeviceProfilerSubpass`). -/
structure DeviceProfilerSubpass where
  m_Index : Nat := 0
  m_ResolveCount : Nat := 0
  deriving DecidableEq, Repr

/-- The per-render-pass shadow metadata (`DeviceProfilerRenderPass`),
restricted to the counters derived at creation time. -/
structure DeviceProfilerRenderPass where
  m_Handle : Nat := 0
  m_ClearColorAttachmentCount : Nat := 0
  m_ClearDepthStencilAttachmentCount : Nat := 0
  m_Subpasses : List DeviceProfilerSubpass := []
  deriving DecidableEq, Repr

/-- Loop body of `CountRenderPassAttachmentClears`
(VkProfilerEXT.cpp:189-221) for one attachment: color clear, depth clear,
and stencil clear (the latter merged with a depth clear of the same
attachment into one depth-stencil clear). -/
def countAttachmentClears (renderPass : DeviceProfilerRenderPass)
    (attachment : VkAttachmentDescription) : DeviceProfilerRenderPass :=
  let imageFormatAspectFlags := GetImageAspectFlagsForFormat attachment.format
  let renderPass :=
    if imageFormatAspectFlags.color ∧
       attachment.loadOp = VkAttachmentLoadOp.CLEAR then
      { renderPass with m_ClearColorAttachmentCount :=
          renderPass.m_ClearColorAttachmentCount + 1 }
    else renderPass
  let hasDepthClear := imageFormatAspectFlags.depth ∧
    attachment.loadOp = VkAttachmentLoadOp.CLEAR
  let renderPass :=
    if hasDepthClear then
      { renderPass with m_ClearDepthStencilAttachmentCount :=
          renderPass.m_ClearDepthStencilAttachmentCount + 1 }
    else renderPass
  if imageFormatAspectFlags.stencil ∧
     attachment.stencilLoadOp = VkAttachmentLoadOp.CLEAR ∧ ¬ hasDepthClear then
    { renderPass with m_ClearDepthStencilAttachmentCount :=
        renderPass.m_ClearDepthStencilAttachmentCount + 1 }
  else renderPass

/-- `CountRenderPassAttachmentClears` (VkProfilerEXT.cpp:184-222): fold of
the per-attachment loop body over the creation descriptor's attachments. -/
def CountRenderPassAttachmentClears (renderPass : DeviceProfilerRenderPass)
    (pAttachments : List VkAttachmentDescription) : DeviceProfilerRenderPass :=
  pAttachments.foldl countAttachmentClears renderPass

/-- `CountSubpassAttachmentResolves` (VkProfilerEXT.cpp:224-240): when the
subpass has a resolve-attachment array, count the entries whose attachment
index is not `VK_ATTACHMENT_UNUSED`. -/
def CountSubpassAttachmentResolves (subpass : DeviceProfilerSubpass)
    (subpassDescription : VkSubpassDescription2) : DeviceProfilerSubpass :=
  match subpassDescription.pResolveAttachments with
  | none => subpass
  | some resolveAttachments =>
    resolveAttachments.foldl
      (fun sp ref =>
        if ref.attachment ≠ VK_ATTACHMENT_UNUSED then
          { sp with m_ResolveCount := sp.m_ResolveCount + 1 }
        else sp)
      subpass

/-- Body of the `PNextIterator` loop of
`DeviceProfiler::CreateRenderPass(VkRenderPassCreateInfo2)`
(VkProfilerEXT.cpp:771-797): a `VkSubpassDescriptionDepthStencilResolve`
entry with an enabled (non-null, non-unused) attachment adds one resolve
when either mode is enabled and a second one when depth and stencil use
independent, differing modes. -/
def countDepthStencilResolve (subpass : DeviceProfilerSubpass)
    (pNextEntry : SubpassPNextStruct) : DeviceProfilerSubpass :=
  match pNextEntry with
  | SubpassPNextStruct.depthStencilResolve depthStencilResolve =>
    match depthStencilResolve.pDepthStencilResolveAttachment with
    | some ref =>
      if ref.attachment ≠ VK_ATTACHMENT_UNUSED then
        let subpass :=
          if depthStencilResolve.depthResolveMode ≠
               VkResolveModeFlagBits.VK_RESOLVE_MODE_NONE ∨
             depthStencilResolve.stencilResolveMode ≠
               VkResolveModeFlagBits.VK_RESOLVE_MODE_NONE then
            { subpass with m_ResolveCount := subpass.m_ResolveCount + 1 }
          else subpass
        if depthStencilResolve.depthResolveMode ≠
             VkResolveModeFlagBits.VK_RESOLVE_MODE_NONE ∧
           depthStencilResolve.stencilResolveMode ≠
             VkResolveModeFlagBits.VK_RESOLVE_MODE_NONE ∧
           depthStencilResolve.stencilResolveMode ≠
             depthStencilResolve.depthResolveMode then
          { subpass with m_ResolveCount := subpass.m_ResolveCount + 1 }
        else subpass
      else subpass
    | none => subpass
  | SubpassPNextStruct.otherStruct _ => subpass

/-- Per-subpass body of
`DeviceProfiler::CreateRenderPass(VkRenderPassCreateInfo2)`
(VkProfilerEXT.cpp:760-799): base resolve counting followed by the
depth-stencil-resolve extension scan over the `pNext` chain. -/
def profileSubpass2 (subpassIndex : Nat)
    (subpassDescription : VkSubpassDescription2) : DeviceProfilerSubpass :=
  let subpass := CountSubpassAttachmentResolves
    { m_Index := subpassIndex } subpassDescription
  subpassDescription.pNext.foldl countDepthStencilResolve subpass

/-- The number of resolve attachments of a subpass whose attachment index is
not `VK_ATTACHMENT_UNUSED` (the spec's description of the base resolve
count). -/
def numResolvedAttachments (subpassDescription : VkSubpassDescription2) : Nat :=
  match subpassDescription.pResolveAttachments with
  | none => 0
  | some resolveAttachments =>
    (resolveAttachments.filter
      (fun ref => ref.attachment ≠ VK_ATTACHMENT_UNUSED)).length

/-- The extra resolves contributed by one `pNext` entry on the
depth-stencil-resolve path. -/
def dsrExtra : SubpassPNextStruct → Nat
  | SubpassPNextStruct.depthStencilResolve depthStencilResolve =>
    match depthStencilResolve.pDepthStencilResolveAttachment with
    | some ref =>
      if ref.attachment ≠ VK_ATTACHMENT_UNUSED then
        (if depthStencilResolve.depthResolveMode ≠
              VkResolveModeFlagBits.VK_RESOLVE_MODE_NONE ∨
            depthStencilResolve.stencilResolveMode ≠
              VkResolveModeFlagBits.VK_RESOLVE_MODE_NONE then 1 else 0) +
        (if depthStencilResolve.depthResolveMode ≠
              VkResolveModeFlagBits.VK_RESOLVE_MODE_NONE ∧
            depthStencilResolve.stencilResolveMode ≠
              VkResolveModeFlagBits.VK_RESOLVE_MODE_NONE ∧
            depthStencilResolve.stencilResolveMode ≠
              depthStencilResolve.depthResolveMode then 1 else 0)
      else 0
    | none => 0
  | SubpassPNextStruct.otherStruct _ => 0

/-- Whether a `pNext` entry is the depth-stencil-resolve extension
structure. -/
def SubpassPNextStruct.isDepthStencilResolve : SubpassPNextStruct → Bool
  | SubpassPNextStruct.depthStencilResolve _ => true
  | SubpassPNextStruct.otherStruct _ => false

/-- Modelled from the spec: `Hash::Fingerprint32` (farmhash, vendored
outside the embedded sources) is described only as a content-addressed
32-bit fingerprint of a byte sequence; it is modelled here as the FNV-1a
32-bit hash, a concrete 32-bit content fingerprint. Bytes are `Nat`s below
256. -/
def Fingerprint32 (bytes : List Nat) : Nat :=
  bytes.foldl (fun h b => ((h ^^^ b) * 16777619) % 2 ^ 32) 2166136261

/-- The shader-module hash registry (`m_ShaderModuleHashes`): an
association list from `VkShaderModule` handles to 32-bit content
fingerprints; `insert` prepends, and lookup takes the most recent binding,
matching map overwrite semantics. -/
abbrev ShaderModuleHashRegistry := List (Nat × Nat)

/-- `DeviceProfiler::CreateShaderModule` (VkProfilerEXT.cpp:693-699):
fingerprint the SPIR-V code and register it under the module handle. -/
def CreateShaderModule (registry : ShaderModuleHashRegistry)
    (module : Nat) (pCode : List Nat) : ShaderModuleHashRegistry :=
  (module, Fingerprint32 pCode) :: registry

/-- Registry lookup (`m_ShaderModuleHashes.at`); `none` models the
exception thrown on an unregistered module. -/
def shaderModuleHashAt (registry : ShaderModuleHashRegistry)
    (module : Nat) : Option Nat :=
  match registry with
  | [] => none
  | (m, h) :: rest => if m = module then some h else shaderModuleHashAt rest module

/-- `VkShaderStageFlagBits`, restricted to the stages the profiler
classifies; `otherStage` covers every unsupported stage bit (the source
asserts on those and stores nothing). -/
inductive VkShaderStageFlagBits where
  | VK_SHADER_STAGE_VERTEX_BIT
  | VK_SHADER_STAGE_TESSELLATION_CONTROL_BIT
  | VK_SHADER_STAGE_TESSELLATION_EVALUATION_BIT
  | VK_SHADER_STAGE_GEOMETRY_BIT
  | VK_SHADER_STAGE_FRAGMENT_BIT
  | VK_SHADER_STAGE_COMPUTE_BIT
  | otherStage (bit : Nat)
  deriving DecidableEq, Repr

/-- The fields of `VkPipelineShaderStageCreateInfo` read by
`CreateShaderTuple`: the stage bit, the module handle, and the entry-point
name (`pName`, as its byte sequence). -/
structure VkPipelineShaderStageCreateInfo where
  stage : VkShaderStageFlagBits
  module : Nat
  pName : List Nat
  deriving DecidableEq, Repr

/-- `ProfilerShaderTuple`: per-stage 32-bit content hashes plus the
aggregate hash; all fields zero-initialised as in the source. -/
structure ProfilerShaderTuple where
  m_Vert : Nat := 0
  m_Tesc : Nat := 0
  m_Tese : Nat := 0
  m_Geom : Nat := 0
  m_Frag : Nat := 0
  m_Comp : Nat := 0
  m_Hash : Nat := 0
  deriving DecidableEq, Repr

/-- Modelled from the spec: the aggregate hash of a graphics tuple is the
32-bit fingerprint of the raw bytes of the tuple structure
(`Fingerprint32(&tuple, sizeof(tuple))`); the struct layout is not among
the embedded sources, so the serialization is modelled as the per-stage
hash fields in declaration order, each as four little-endian bytes, with
the not-yet-assigned `m_Hash` field still zero. -/
def serializeTuple (t : ProfilerShaderTuple) : List Nat :=
  let bytes4 (v : Nat) : List Nat :=
    [v % 256, v / 256 % 256, v / 256 ^ 2 % 256, v / 256 ^ 3 % 256]
  bytes4 t.m_Vert ++ bytes4 t.m_Tesc ++ bytes4 t.m_Tese ++
    bytes4 t.m_Geom ++ bytes4 t.m_Frag ++ bytes4 t.m_Comp ++ bytes4 0

/-- Per-stage body of the graphics `CreateShaderTuple` loop
(VkProfilerEXT.cpp:1094-1118): the stage hash is the module's content
fingerprint XORed with the entry-point fingerprint, stored in the slot of
the stage; an unsupported stage stores nothing (the assert is a no-op in
release builds). -/
def applyShaderStage (tuple : ProfilerShaderTuple)
    (stage : VkShaderStageFlagBits) (hash : Nat) : ProfilerShaderTuple :=
  match stage with
  | VkShaderStageFlagBits.VK_SHADER_STAGE_VERTEX_BIT =>
    { tuple with m_Vert := hash }
  | VkShaderStageFlagBits.VK_SHADER_STAGE_TESSELLATION_CONTROL_BIT =>
    { tuple with m_Tesc := hash }
  | VkShaderStageFlagBits.VK_SHADER_STAGE_TESSELLATION_EVALUATION_BIT =>
    { tuple with m_Tese := hash }
  | VkShaderStageFlagBits.VK_SHADER_STAGE_GEOMETRY_BIT =>
    { tuple with m_Geom := hash }
  | VkShaderStageFlagBits.VK_SHADER_STAGE_FRAGMENT_BIT =>
    { tuple with m_Frag := hash }
  | _ => tuple

/-- The stage loop of the graphics `CreateShaderTuple`, with `none`
modelling the exception thrown when a referenced module is not
registered. -/
def createShaderTupleStages (registry : ShaderModuleHashRegistry) :
    List VkPipelineShaderStageCreateInfo → ProfilerShaderTuple →
    Option ProfilerShaderTuple
  | [], tuple => some tuple
  | stageInfo :: rest, tuple =>
    match shaderModuleHashAt registry stageInfo.module with
    | none => none
    | some moduleHash =>
      let hash := moduleHash ^^^ Fingerprint32 stageInfo.pName
      createShaderTupleStages registry rest
        (applyShaderStage tuple stageInfo.stage hash)

/-- `DeviceProfiler::CreateShaderTuple(VkGraphicsPipelineCreateInfo)`
(VkProfilerEXT.cpp:1090-1124): fill the per-stage slots, then compute the
aggregated tuple hash over the tuple's bytes. -/
def CreateShaderTupleGraphics (registry : ShaderModuleHashRegistry)
    (pStages : List VkPipelineShaderStageCreateInfo) :
    Option ProfilerShaderTuple :=
  (createShaderTupleStages registry pStages {}).map
    (fun tuple => { tuple with m_Hash := Fingerprint32 (serializeTuple tuple) })

/-- `DeviceProfiler::CreateShaderTuple(VkComputePipelineCreateInfo)`
(VkProfilerEXT.cpp:1134-1155): the single compute stage hash is both the
per-stage hash and the aggregate hash. -/
def CreateShaderTupleCompute (registry : ShaderModuleHashRegistry)
    (stage : VkPipelineShaderStageCreateInfo) :
    Option ProfilerShaderTuple :=
  match shaderModuleHashAt registry stage.module with
  | none => none
  | some moduleHash =>
    let hash := moduleHash ^^^ Fingerprint32 stage.pName
    some { m_Comp := hash, m_Hash := hash }

/-- The per-command-buffer wrapper (`ProfilerCommandBuffer`), restricted to
what the device-profiler orchestration reads: the owning pool, the handle,
the level, the captured profiling data (an opaque blob, `GetData()`), and
the submitted flag (modelled from the spec: `Submit()` marks the snapshot
dirty/in-flight; the wrapper's implementation is not among the embedded
sources). -/
structure ProfilerCommandBuffer where
  m_CommandPool : Nat
  m_CommandBuffer : Nat
  m_Level : Nat := 0
  m_Data : Nat := 0
  m_Submitted : Bool := false
  deriving DecidableEq, Repr

/-- `ProfilerCommandBuffer::GetCommandPool`. -/
def ProfilerCommandBuffer.GetCommandPool (cb : ProfilerCommandBuffer) : Nat :=
  cb.m_CommandPool

/-- `ProfilerCommandBuffer::GetData`: the captured data blob. -/
def ProfilerCommandBuffer.GetData (cb : ProfilerCommandBuffer) : Nat :=
  cb.m_Data

/-- `ProfilerCommandBuffer::Submit` (modelled from the spec: marks the
snapshot dirty/in-flight, transitioning the wrapper to `Submitted`). -/
def ProfilerCommandBuffer.Submit (cb : ProfilerCommandBuffer) :
    ProfilerCommandBuffer :=
  { cb with m_Submitted := true }

/-- The command-buffer registry (`m_CommandBuffers`): an association list
from `VkCommandBuffer` handles to wrappers, preserving iteration order. -/
abbrev CommandBufferRegistry := List (Nat × ProfilerCommandBuffer)

/-- One `DeviceProfilerSubmit`: the ordered command buffers of one
`VkSubmitInfo` (the source stores wrapper pointers; the embedding stores
the handles). -/
structure DeviceProfilerSubmit where
  m_pCommandBuffers : List Nat := []
  deriving DecidableEq, Repr

/-- One `DeviceProfilerSubmitBatch`: the queue and the ordered submits of
one `vkQueueSubmit` call. -/
structure DeviceProfilerSubmitBatch where
  m_Handle : Nat := 0
  m_Submits : List DeviceProfilerSubmit := []
  deriving DecidableEq, Repr

/-- CPU-side frame statistics attached at `FinishFrame`. -/
structure DeviceProfilerCPUData where
  m_TimeNs : Nat := 0
  m_FramesPerSec : Nat := 0
  m_CommandBufferAccessTimeNs : Nat := 0
  m_PipelineAccessTimeNs : Nat := 0
  m_RenderPassAccessTimeNs : Nat := 0
  m_ShaderModuleAccessTimeNs : Nat := 0
  deriving DecidableEq, Repr

/-- The per-frame aggregate (`DeviceProfilerFrameData`): the running
totals over resolved per-command-buffer contributions, the ordered
submit-batch list, and the memory/CPU statistics attached at frame end.
Modelled from the spec: the aggregator's implementation is not among the
embedded sources; a contribution is the `(commandBuffer, data)` pair of an
`AppendData` call, and the total ticks are their running sum. -/
structure DeviceProfilerFrameData where
  m_Contributions : List (Nat × Nat) := []
  m_Submits : List DeviceProfilerSubmitBatch := []
  m_TotalTicks : Nat := 0
  m_Memory : Nat := 0
  m_CPU : DeviceProfilerCPUData := {}
  deriving DecidableEq, Repr

/-- The data aggregator (`ProfilerDataAggregator`). Modelled from the
spec: `AppendSubmit` queues a batch without requiring resolved data;
`AppendData` folds one resolved command buffer's data into the running
totals; `Aggregate` resolves every pending batch and folds it in;
`GetAggregatedData` returns the accumulated aggregate without resetting;
`Reset` clears all accumulated state. -/
structure ProfilerDataAggregator where
  m_PendingSubmits : List DeviceProfilerSubmitBatch := []
  m_Data : DeviceProfilerFrameData := {}
  deriving DecidableEq, Repr

/-- `ProfilerDataAggregator::AppendSubmit` (modelled from the spec):
append the batch to the pending structure. -/
def ProfilerDataAggregator.AppendSubmit (agg : ProfilerDataAggregator)
    (batch : DeviceProfilerSubmitBatch) : ProfilerDataAggregator :=
  { agg with m_PendingSubmits := agg.m_PendingSubmits ++ [batch] }

/-- `ProfilerDataAggregator::AppendData` (modelled from the spec): fold
one resolved command buffer's captured data into the running totals. -/
def ProfilerDataAggregator.AppendData (agg : ProfilerDataAggregator)
    (commandBuffer : Nat) (data : Nat) : ProfilerDataAggregator :=
  { agg with m_Data :=
      { agg.m_Data with
        m_Contributions := agg.m_Data.m_Contributions ++ [(commandBuffer, data)]
        m_TotalTicks := agg.m_Data.m_TotalTicks + data } }

/-- Look up a command-buffer wrapper (`m_CommandBuffers.at` / `find`). -/
def commandBufferAt (registry : CommandBufferRegistry) (handle : Nat) :
    Option ProfilerCommandBuffer :=
  match registry with
  | [] => none
  | (h, cb) :: rest =>
    if h = handle then some cb else commandBufferAt rest handle

/-- The resolved data of one pending batch: each referenced command
buffer's captured data, read from the registry (a missing wrapper
contributes zero, the spec's incomplete-data degradation). -/
def resolveBatchData (registry : CommandBufferRegistry)
    (batch : DeviceProfilerSubmitBatch) : List (Nat × Nat) :=
  (batch.m_Submits.map (fun submit =>
    submit.m_pCommandBuffers.map (fun handle =>
      (handle, ((commandBufferAt registry handle).map
        ProfilerCommandBuffer.GetData).getD 0)))).flatten

/-- `ProfilerDataAggregator::Aggregate` (modelled from the spec): resolve
all currently pending batches against the registry, fold their data into
the running totals, and move the batches into the aggregate's ordered
submit list, leaving nothing pending. -/
def ProfilerDataAggregator.Aggregate (agg : ProfilerDataAggregator)
    (registry : CommandBufferRegistry) : ProfilerDataAggregator :=
  let resolved := (agg.m_PendingSubmits.map (resolveBatchData registry)).flatten
  { m_PendingSubmits := []
    m_Data :=
      { agg.m_Data with
        m_Contributions := agg.m_Data.m_Contributions ++ resolved
        m_Submits := agg.m_Data.m_Submits ++ agg.m_PendingSubmits
        m_TotalTicks := agg.m_Data.m_TotalTicks + (resolved.map Prod.snd).sum } }

/-- `ProfilerDataAggregator::GetAggregatedData` (modelled from the spec):
return the accumulated aggregate without resetting it. -/
def ProfilerDataAggregator.GetAggregatedData (agg : ProfilerDataAggregator) :
    DeviceProfilerFrameData :=
  agg.m_Data

/-- `ProfilerDataAggregator::Reset` (modelled from the spec): clear all
accumulated state for the next frame. -/
def ProfilerDataAggregator.Reset (_ : ProfilerDataAggregator) :
    ProfilerDataAggregator :=
  {}

/-- The device-profiler orchestrator state (`DeviceProfiler`), restricted
to the fields the embedded operations touch. The CPU/memory statistic
sources (timestamp counter, FPS counter, memory tracker, registry access
counters) are opaque values read at frame end. -/
structure DeviceProfiler where
  m_Config : DeviceProfilerConfig := {}
  m_CommandBuffers : CommandBufferRegistry := []
  m_DataAggregator : ProfilerDataAggregator := {}
  m_CurrentFrame : Nat := 0
  m_Data : DeviceProfilerFrameData := {}
  m_SubmitFence : Nat := 0
  m_PerformanceConfigurationINTEL : Option Nat := none
  m_MemoryData : Nat := 0
  m_CpuTimeNs : Nat := 0
  m_CpuFps : Nat := 0
  m_CommandBufferAccessTimeNs : Nat := 0
  m_PipelineAccessTimeNs : Nat := 0
  m_RenderPassAccessTimeNs : Nat := 0
  m_ShaderModuleAccessTimeNs : Nat := 0
  deriving DecidableEq, Repr

/-- `DeviceProfiler::AllocateCommandBuffers` (VkProfilerEXT.cpp:559-574):
insert a fresh wrapper for each allocated handle, recording the owning
pool and level. -/
def AllocateCommandBuffers (p : DeviceProfiler) (commandPool : Nat)
    (level : Nat) (pCommandBuffers : List Nat) : DeviceProfiler :=
  { p with
    m_CommandBuffers :=
      pCommandBuffers.foldl
        (fun reg commandBuffer =>
          reg ++ [(commandBuffer,
            { m_CommandPool := commandPool
              m_CommandBuffer := commandBuffer
              m_Level := level })])
        p.m_CommandBuffers }

/-- The free-by-pool loop of `DeviceProfiler::FreeCommandBuffers(VkCommandPool)`
(VkProfilerEXT.cpp:608-622 with 1242-1251): walk the registry in order;
every wrapper whose owning pool matches has its captured data appended to
the aggregator (`AppendData`) and is removed; the rest are kept. Returns
the aggregator and registry after the loop. -/
def freeCommandBuffersLoop (agg : ProfilerDataAggregator)
    (commandPool : Nat) :
    List (Nat × ProfilerCommandBuffer) →
    ProfilerDataAggregator × List (Nat × ProfilerCommandBuffer)
  | [] => (agg, [])
  | entry :: rest =>
    if entry.2.GetCommandPool = commandPool then
      freeCommandBuffersLoop
        (agg.AppendData entry.1 entry.2.GetData) commandPool rest
    else
      let result := freeCommandBuffersLoop agg commandPool rest
      (result.1, entry :: result.2)

/-- `DeviceProfiler::FreeCommandBuffers(VkCommandPool)`: bulk-free every
wrapper of the pool, flushing each one's data into the aggregator. -/
def FreeCommandBuffersByPool (p : DeviceProfiler) (commandPool : Nat) :
    DeviceProfiler :=
  let result := freeCommandBuffersLoop p.m_DataAggregator commandPool
    p.m_CommandBuffers
  { p with m_DataAggregator := result.1, m_CommandBuffers := result.2 }

/-- GPU-API calls issued by the orchestrator, in issue order. -/
inductive ProfilerApiCall where
  | queueSubmit (queue : Nat) (submitCount : Nat) (fence : Nat)
  | waitForFences (fence : Nat) (timeout : Nat)
  | resetFences (fence : Nat)
  | deviceWaitIdle
  | releasePerformanceConfigurationINTEL (handle : Nat)
  deriving DecidableEq, Repr

/-- The no-timeout wait bound (`std::numeric_limits<uint64_t>::max()`). -/
def UINT64_MAX : Nat := 2 ^ 64 - 1

/-- The fields of `VkSubmitInfo` read by the profiler. -/
structure VkSubmitInfo where
  pCommandBuffers : List Nat := []
  deriving DecidableEq, Repr

/-- Whether a handle is registered. -/
def containsCommandBuffer (registry : CommandBufferRegistry)
    (handle : Nat) : Bool :=
  registry.any (fun entry => entry.1 = handle)

/-- Apply `Submit()` to the wrapper registered under `handle`. -/
def submitCommandBuffer (registry : CommandBufferRegistry) (handle : Nat) :
    CommandBufferRegistry :=
  registry.map (fun entry =>
    if entry.1 = handle then (entry.1, entry.2.Submit) else entry)

/-- The inner loop of `PostSubmitCommandBuffers` over one `VkSubmitInfo`'s
command buffers (VkProfilerEXT.cpp:896-911): look each wrapper up
(`GetCommandBuffer` throws on a missing handle, modelled as `none`) and
mark it submitted. -/
def postSubmitMarkLoop (registry : CommandBufferRegistry) :
    List Nat → Option CommandBufferRegistry
  | [] => some registry
  | handle :: rest =>
    if containsCommandBuffer registry handle then
      postSubmitMarkLoop (submitCommandBuffer registry handle) rest
    else none

/-- The outer loop of `PostSubmitCommandBuffers` over the submit infos
(VkProfilerEXT.cpp:889-915): wrap each `VkSubmitInfo` into a
`DeviceProfilerSubmit` preserving order, marking the referenced wrappers
along the way. -/
def postSubmitLoop (registry : CommandBufferRegistry) :
    List VkSubmitInfo →
    Option (CommandBufferRegistry × List DeviceProfilerSubmit)
  | [] => some (registry, [])
  | submitInfo :: rest =>
    match postSubmitMarkLoop registry submitInfo.pCommandBuffers with
    | none => none
    | some registry2 =>
      (postSubmitLoop registry2 rest).map
        (fun result => (result.1, ⟨submitInfo.pCommandBuffers⟩ :: result.2))

/-- `DeviceProfiler::PostSubmitCommandBuffers` (VkProfilerEXT.cpp:869-938):
in submit-wait mode, first issue a zero-command dummy submission signaling
the profiler's own fence, block on it with no timeout, and reset it; wrap
the submitted command buffers into a `DeviceProfilerSubmitBatch`
preserving submission order, marking each referenced wrapper `Submit()`;
hand the batch to the aggregator; release the vendor
performance-configuration handle if one is held; in submit-wait mode,
finally aggregate the data. Returns the new state and the GPU-API calls
issued, in order; `none` models the exception on an unregistered
command buffer. -/
def PostSubmitCommandBuffers (p : DeviceProfiler) (queue : Nat)
    (pSubmitInfo : List VkSubmitInfo) :
    Option (DeviceProfiler × List ProfilerApiCall) :=
  let syncCalls :=
    if p.m_Config.m_SyncMode = VK_PROFILER_SYNC_MODE_SUBMIT_EXT then
      [ProfilerApiCall.queueSubmit queue 0 p.m_SubmitFence,
       ProfilerApiCall.waitForFences p.m_SubmitFence UINT64_MAX,
       ProfilerApiCall.resetFences p.m_SubmitFence]
    else []
  match postSubmitLoop p.m_CommandBuffers pSubmitInfo with
  | none => none
  | some result =>
    let submitBatch : DeviceProfilerSubmitBatch :=
      { m_Handle := queue, m_Submits := result.2 }
    let aggregator := p.m_DataAggregator.AppendSubmit submitBatch
    let releaseCalls :=
      match p.m_PerformanceConfigurationINTEL with
      | some handle => [ProfilerApiCall.releasePerformanceConfigurationINTEL handle]
      | none => []
    let aggregator :=
      if p.m_Config.m_SyncMode = VK_PROFILER_SYNC_MODE_SUBMIT_EXT then
        aggregator.Aggregate result.1
      else aggregator
    some ({ p with
              m_CommandBuffers := result.1
              m_DataAggregator := aggregator
              m_PerformanceConfigurationINTEL := none },
          syncCalls ++ releaseCalls)

/-- `DeviceProfiler::FinishFrame` (VkProfilerEXT.cpp:948-1016): increment
the frame counter; in present-wait mode wait for device idle and
aggregate; publish the aggregator's merged snapshot as the new current
frame data, attaching the memory statistics and the CPU statistics (frame
time, FPS, per-registry access latencies); reset the aggregator for the
next frame. (The conditional refresh of the stored access-latency
averages from the registries' performance counters is wall-clock driven
and kept abstract: the stored values are attached as the source does
unconditionally.) Returns the new state and the GPU-API calls issued. -/
def FinishFrame (p : DeviceProfiler) :
    DeviceProfiler × List ProfilerApiCall :=
  let p1 := { p with m_CurrentFrame := p.m_CurrentFrame + 1 }
  let waited :=
    if p1.m_Config.m_SyncMode = VK_PROFILER_SYNC_MODE_PRESENT_EXT then
      (p1.m_DataAggregator.Aggregate p1.m_CommandBuffers,
       [ProfilerApiCall.deviceWaitIdle])
    else (p1.m_DataAggregator, [])
  let data := waited.1.GetAggregatedData
  let data := { data with m_Memory := p1.m_MemoryData }
  let data := { data with m_CPU :=
    { m_TimeNs := p1.m_CpuTimeNs
      m_FramesPerSec := p1.m_CpuFps
      m_CommandBufferAccessTimeNs := p1.m_CommandBufferAccessTimeNs
      m_PipelineAccessTimeNs := p1.m_PipelineAccessTimeNs
      m_RenderPassAccessTimeNs := p1.m_RenderPassAccessTimeNs
      m_ShaderModuleAccessTimeNs := p1.m_ShaderModuleAccessTimeNs } }
  ({ p1 with m_Data := data, m_DataAggregator := waited.1.Reset }, waited.2)

/-- Mark every registry entry whose handle occurs in `referenced` as
submitted (the cumulative effect of the marking in `PostSubmitCommandBuffers`). -/
def markReferenced (referenced : List Nat) (registry : CommandBufferRegistry) :
    CommandBufferRegistry :=
  registry.map (fun entry =>
    if entry.1 ∈ referenced then (entry.1, entry.2.Submit) else entry)

/-- One node of a finalized region tree: begin and end timestamps and the
ordered children. Modelled from the spec: the command-buffer recorder's
implementation is not among the embedded sources; §3/§4.1 describe regions
as nodes with begin/end timestamps and issue-ordered children. -/
inductive Region where
  | node (beginTimestamp endTimestamp : Nat) (children : List Region)
  deriving Repr

/-- Begin timestamp of a region. -/
def Region.beginTimestamp : Region → Nat
  | Region.node b _ _ => b

/-- End timestamp of a region. -/
def Region.endTimestamp : Region → Nat
  | Region.node _ e _ => e

mutual

/-- Well-formedness of a finalized region tree: every region has
`beginTimestamp ≤ endTimestamp`, and every child's `[begin, end]` lies
strictly inside its parent's open interval. -/
def Region.wf : Region → Bool
  | Region.node b e cs => decide (b ≤ e) && childrenWithin b e cs

/-- Well-formedness of a sibling list under the parent's open interval. -/
def childrenWithin (b e : Nat) : List Region → Bool
  | [] => true
  | c :: cs =>
    decide (b < c.beginTimestamp) && decide (c.endTimestamp < e) &&
      c.wf && childrenWithin b e cs

end

/-- One region-stack operation of a recording session: pushing a new child
region (recording its begin timestamp) or popping the top region
(recording its end timestamp). Modelled from the spec (§4.1): every
traced command pushes before and pops after, in strict LIFO order. -/
inductive RecOp where
  | push
  | pop
  deriving DecidableEq, Repr

/-- An open region on the recorder's stack: its begin timestamp and the
finalized children collected so far, in issue order. -/
structure OpenRegion where
  beginTimestamp : Nat
  children : List Region := []

/-- Close the open region `f` at timestamp `t` and attach it as the next
child of `parent`. -/
def closeInto (f : OpenRegion) (t : Nat) (parent : OpenRegion) : OpenRegion :=
  { parent with children :=
      parent.children ++ [Region.node f.beginTimestamp t f.children] }

/-- Recorder state: the timestamp clock (each recorded timestamp query
takes the current clock value and advances it — GPU timestamps are
monotone within one command buffer's query pool, spec §4.1 numeric
semantics), the stack of open regions above the root, and the root
`CommandBuffer` region. -/
structure RecorderState where
  clock : Nat
  stack : List OpenRegion
  root : OpenRegion

/-- One region-stack step. A `pop` with no open region above the root is
ignored (the recorder's defensive close only matches the current depth). -/
def recordStep (s : RecorderState) : RecOp → RecorderState
  | RecOp.push =>
    { s with clock := s.clock + 1
             stack := { beginTimestamp := s.clock } :: s.stack }
  | RecOp.pop =>
    match s.stack with
    | [] => s
    | [f] => { clock := s.clock + 1, stack := [],
               root := closeInto f s.clock s.root }
    | f :: g :: rest =>
      { s with clock := s.clock + 1, stack := closeInto f s.clock g :: rest }

/-- `Begin`: reset the region stack to a single root `CommandBuffer`
region, recording its begin timestamp (clock 0). -/
def recorderBegin : RecorderState :=
  { clock := 1, stack := [], root := { beginTimestamp := 0 } }

/-- `End`: defensively close every dangling open region at successive
timestamps, innermost first, finally closing the root. -/
def closeAll (t : Nat) (stack : List OpenRegion) (root : OpenRegion) :
    Region :=
  match stack with
  | [] => Region.node root.beginTimestamp t root.children
  | [f] => closeAll (t + 1) [] (closeInto f t root)
  | f :: g :: rest => closeAll (t + 1) (closeInto f t g :: rest) root
termination_by stack.length

/-- A full `Begin` … `End` recording session over a region-stack operation
sequence, producing the finalized command-buffer region tree. -/
def record (ops : List RecOp) : Region :=
  let s := ops.foldl recordStep recorderBegin
  closeAll s.clock s.stack s.root

/-- Validity of a region-stack sequence: no prefix pops more regions than
it pushed (`d` tracks the current open depth). -/
def validFrom (d : Nat) : List RecOp → Bool
  | [] => true
  | RecOp.push :: rest => validFrom (d + 1) rest
  | RecOp.pop :: rest => decide (0 < d) && validFrom (d - 1) rest

/-- A valid region-stack sequence, starting at depth zero. -/
def ValidOps (ops : List RecOp) : Bool := validFrom 0 ops

/-- Stack invariant of the recorder at clock `t`: open regions are listed
innermost first with strictly decreasing begin timestamps, all below `t`,
and each frame's collected children lie strictly inside the frame's begin
time and the current clock (resp. the begin time of the frame above). -/
def FramesInv : Nat → List OpenRegion → Prop
  | _, [] => True
  | t, f :: rest =>
    f.beginTimestamp < t ∧
    (∀ c ∈ f.children, f.beginTimestamp < c.beginTimestamp ∧
      c.endTimestamp < t ∧ c.wf = true) ∧
    FramesInv f.beginTimestamp rest

/-- The recorder invariant: the open-region stack together with the root
satisfies the frame invariant at the current clock. -/
def RecorderInv (s : RecorderState) : Prop :=
  FramesInv s.clock (s.stack ++ [s.root])
/-- C3: `SetSyncMode` accepts exactly the two supported synchronization
policies, storing the new mode and leaving the rest of the configuration
intact; any other value fails with a validation error and leaves the whole
configuration (including the stored synchronization mode) unchanged. -/
theorem C3_set_sync_mode (config : DeviceProfilerConfig) (syncMode : Nat) :
    ((syncMode = VK_PROFILER_SYNC_MODE_PRESENT_EXT ∨
      syncMode = VK_PROFILER_SYNC_MODE_SUBMIT_EXT) →
      SetSyncMode config syncMode =
        (VkResult.VK_SUCCESS, { config with m_SyncMode := syncMode })) ∧
    ((syncMode ≠ VK_PROFILER_SYNC_MODE_PRESENT_EXT ∧
      syncMode ≠ VK_PROFILER_SYNC_MODE_SUBMIT_EXT) →
      SetSyncMode config syncMode =
        (VkResult.VK_ERROR_VALIDATION_FAILED_EXT, config)) := by
  constructor
  · intro h
    rcases h with h | h <;> simp [SetSyncMode, h,
      VK_PROFILER_SYNC_MODE_PRESENT_EXT, VK_PROFILER_SYNC_MODE_SUBMIT_EXT]
  · intro h
    simp [SetSyncMode, h.1, h.2]

/-- Witness for C3: at the concrete invalid value 7 the call fails and the
configuration is untouched, and at the valid submit-wait value it succeeds. -/
theorem C3_set_sync_mode_witness :
    SetSyncMode {} 7 = (VkResult.VK_ERROR_VALIDATION_FAILED_EXT, {}) ∧
    SetSyncMode {} VK_PROFILER_SYNC_MODE_SUBMIT_EXT =
      (VkResult.VK_SUCCESS, { m_SyncMode := VK_PROFILER_SYNC_MODE_SUBMIT_EXT }) :=
  ⟨(C3_set_sync_mode {} 7).2 (by decide),
   (C3_set_sync_mode {} VK_PROFILER_SYNC_MODE_SUBMIT_EXT).1 (Or.inr rfl)⟩

/-- C10: with the vendor metrics backend available, a zero input count
receives the available metric count with `VK_SUCCESS` and no properties
written; a nonzero input count copies exactly `min(count, available)`
property entries and returns `VK_INCOMPLETE` exactly when fewer than the
available number were copied, `VK_SUCCESS` otherwise. -/
theorem C10_enumerate_metric_properties (api : MetricsApiINTEL)
    (count : Nat) (hAvail : api.isAvailable = true) :
    (count = 0 →
      vkEnumerateProfilerMetricPropertiesEXT api count =
        { result := VkResult.VK_SUCCESS
          profilerMetricCount := api.metricsProperties.length
          writtenProperties := [] }) ∧
    (count ≠ 0 →
      (vkEnumerateProfilerMetricPropertiesEXT api count).writtenProperties.length
          = min count api.metricsProperties.length ∧
      (vkEnumerateProfilerMetricPropertiesEXT api count).writtenProperties
          = api.metricsProperties.take (min count api.metricsProperties.length) ∧
      (vkEnumerateProfilerMetricPropertiesEXT api count).result =
        (if min count api.metricsProperties.length < api.metricsProperties.length
         then VkResult.VK_INCOMPLETE else VkResult.VK_SUCCESS)) := by
  constructor
  · intro h
    subst h
    simp [vkEnumerateProfilerMetricPropertiesEXT, hAvail]
  · intro h
    refine ⟨?_, ?_, ?_⟩
    · simp only [vkEnumerateProfilerMetricPropertiesEXT, hAvail, if_true,
        if_neg h, List.length_take]
      omega
    · simp [vkEnumerateProfilerMetricPropertiesEXT, hAvail, h]
    · by_cases hlt :
        min count api.metricsProperties.length < api.metricsProperties.length <;>
      simp [vkEnumerateProfilerMetricPropertiesEXT, hAvail, h, hlt]

/-- Witness for C10: a backend reporting three metrics, queried once with a
zero count and once with a two-element buffer (which is too small, so the
call reports `VK_INCOMPLETE` after copying exactly two entries). -/
theorem C10_enumerate_metric_properties_witness :
    (vkEnumerateProfilerMetricPropertiesEXT ⟨true, [10, 20, 30]⟩ 0 =
      { result := VkResult.VK_SUCCESS
        profilerMetricCount := 3
        writtenProperties := [] }) ∧
    ((vkEnumerateProfilerMetricPropertiesEXT ⟨true, [10, 20, 30]⟩ 2).writtenProperties
        = [10, 20] ∧
     (vkEnumerateProfilerMetricPropertiesEXT ⟨true, [10, 20, 30]⟩ 2).result =
        VkResult.VK_INCOMPLETE) := by
  refine ⟨(C10_enumerate_metric_properties ⟨true, [10, 20, 30]⟩ 0 rfl).1 rfl, ?_⟩
  have h := (C10_enumerate_metric_properties ⟨true, [10, 20, 30]⟩ 2 rfl).2
    (by decide)
  exact ⟨by rw [h.2.1]; decide, by rw [h.2.2]; decide⟩

/-- C2: within any render-pass creation descriptor (any already-counted
prefix of attachments), an attachment whose format carries both depth and
stencil aspects and whose depth and stencil load-ops are both `CLEAR` adds
exactly one to the depth-stencil clear count (not two) and leaves the color
clear count unchanged; an attachment with a color-aspect format and load-op
`CLEAR` adds exactly one to the color clear count and leaves the
depth-stencil clear count unchanged. -/
theorem C2_render_pass_clear_counting (renderPass : DeviceProfilerRenderPass)
    (prefixAttachments : List VkAttachmentDescription)
    (attachment : VkAttachmentDescription) :
    (((GetImageAspectFlagsForFormat attachment.format).depth = true ∧
      (GetImageAspectFlagsForFormat attachment.format).stencil = true ∧
      attachment.loadOp = VkAttachmentLoadOp.CLEAR ∧
      attachment.stencilLoadOp = VkAttachmentLoadOp.CLEAR) →
      (CountRenderPassAttachmentClears renderPass
          (prefixAttachments ++ [attachment])).m_ClearDepthStencilAttachmentCount =
        (CountRenderPassAttachmentClears renderPass
          prefixAttachments).m_ClearDepthStencilAttachmentCount + 1 ∧
      (CountRenderPassAttachmentClears renderPass
          (prefixAttachments ++ [attachment])).m_ClearColorAttachmentCount =
        (CountRenderPassAttachmentClears renderPass
          prefixAttachments).m_ClearColorAttachmentCount) ∧
    (((GetImageAspectFlagsForFormat attachment.format).color = true ∧
      attachment.loadOp = VkAttachmentLoadOp.CLEAR) →
      (CountRenderPassAttachmentClears renderPass
          (prefixAttachments ++ [attachment])).m_ClearColorAttachmentCount =
        (CountRenderPassAttachmentClears renderPass
          prefixAttachments).m_ClearColorAttachmentCount + 1 ∧
      (CountRenderPassAttachmentClears renderPass
          (prefixAttachments ++ [attachment])).m_ClearDepthStencilAttachmentCount =
        (CountRenderPassAttachmentClears renderPass
          prefixAttachments).m_ClearDepthStencilAttachmentCount) := by
  have hfold : CountRenderPassAttachmentClears renderPass
      (prefixAttachments ++ [attachment]) =
      countAttachmentClears
        (CountRenderPassAttachmentClears renderPass prefixAttachments)
        attachment := by
    simp [CountRenderPassAttachmentClears, List.foldl_append]
  rw [hfold]
  set rp := CountRenderPassAttachmentClears renderPass prefixAttachments
  constructor
  · rintro ⟨hd, hs, hl, hsl⟩
    have hcolor : (GetImageAspectFlagsForFormat attachment.format).color = false := by
      cases hfmt : attachment.format <;>
        simp_all [GetImageAspectFlagsForFormat]
    constructor <;> simp [countAttachmentClears, hd, hs, hl, hsl, hcolor]
  · rintro ⟨hc, hl⟩
    have hds : (GetImageAspectFlagsForFormat attachment.format).depth = false ∧
        (GetImageAspectFlagsForFormat attachment.format).stencil = false := by
      cases hfmt : attachment.format <;>
        simp_all [GetImageAspectFlagsForFormat]
    constructor <;> simp [countAttachmentClears, hc, hl, hds.1, hds.2]

/-- Witness for C2: a single-subpass render pass with one
`D24_UNORM_S8_UINT` attachment clearing both aspects counts one combined
depth-stencil clear and no color clear, and one color attachment with
load-op `CLEAR` counts one color clear. -/
theorem C2_render_pass_clear_counting_witness :
    ((CountRenderPassAttachmentClears {}
        [⟨VkFormat.D24_UNORM_S8_UINT, VkAttachmentLoadOp.CLEAR,
          VkAttachmentLoadOp.CLEAR⟩]).m_ClearDepthStencilAttachmentCount = 1 ∧
     (CountRenderPassAttachmentClears {}
        [⟨VkFormat.D24_UNORM_S8_UINT, VkAttachmentLoadOp.CLEAR,
          VkAttachmentLoadOp.CLEAR⟩]).m_ClearColorAttachmentCount = 0) ∧
    ((CountRenderPassAttachmentClears {}
        [⟨VkFormat.colorFormat 44, VkAttachmentLoadOp.CLEAR,
          VkAttachmentLoadOp.DONT_CARE⟩]).m_ClearColorAttachmentCount = 1 ∧
     (CountRenderPassAttachmentClears {}
        [⟨VkFormat.colorFormat 44, VkAttachmentLoadOp.CLEAR,
          VkAttachmentLoadOp.DONT_CARE⟩]).m_ClearDepthStencilAttachmentCount = 0) := by
  constructor
  · have h := (C2_render_pass_clear_counting {} []
      ⟨VkFormat.D24_UNORM_S8_UINT, VkAttachmentLoadOp.CLEAR,
        VkAttachmentLoadOp.CLEAR⟩).1 (by exact ⟨rfl, rfl, rfl, rfl⟩)
    exact ⟨by rw [List.nil_append] at h; rw [h.1]; decide,
           by rw [List.nil_append] at h; rw [h.2]; decide⟩
  · have h := (C2_render_pass_clear_counting {} []
      ⟨VkFormat.colorFormat 44, VkAttachmentLoadOp.CLEAR,
        VkAttachmentLoadOp.DONT_CARE⟩).2 (by exact ⟨rfl, rfl⟩)
    exact ⟨by rw [List.nil_append] at h; rw [h.1]; decide,
           by rw [List.nil_append] at h; rw [h.2]; decide⟩

/-- One `pNext` entry changes only the resolve count, by exactly its
depth-stencil-resolve contribution. -/
theorem countDepthStencilResolve_eq (subpass : DeviceProfilerSubpass)
    (e : SubpassPNextStruct) :
    countDepthStencilResolve subpass e =
      { subpass with m_ResolveCount := subpass.m_ResolveCount + dsrExtra e } := by
  cases e with
  | depthStencilResolve r =>
    cases href : r.pDepthStencilResolveAttachment with
    | none => simp [countDepthStencilResolve, dsrExtra, href]
    | some ref =>
      by_cases hused : ref.attachment ≠ VK_ATTACHMENT_UNUSED
      · by_cases hone : r.depthResolveMode ≠
            VkResolveModeFlagBits.VK_RESOLVE_MODE_NONE ∨
            r.stencilResolveMode ≠ VkResolveModeFlagBits.VK_RESOLVE_MODE_NONE
        · by_cases htwo : r.depthResolveMode ≠
              VkResolveModeFlagBits.VK_RESOLVE_MODE_NONE ∧
              r.stencilResolveMode ≠ VkResolveModeFlagBits.VK_RESOLVE_MODE_NONE ∧
              r.stencilResolveMode ≠ r.depthResolveMode
          · simp [countDepthStencilResolve, dsrExtra, href, hused, hone, htwo]
          · simp [countDepthStencilResolve, dsrExtra, href, hused, hone, htwo]
        · have htwo : ¬ (r.depthResolveMode ≠
              VkResolveModeFlagBits.VK_RESOLVE_MODE_NONE ∧
              r.stencilResolveMode ≠ VkResolveModeFlagBits.VK_RESOLVE_MODE_NONE ∧
              r.stencilResolveMode ≠ r.depthResolveMode) := by tauto
          simp [countDepthStencilResolve, dsrExtra, href, hused, hone, htwo]
      · simp [countDepthStencilResolve, dsrExtra, href, hused]
  | otherStruct s => simp [countDepthStencilResolve, dsrExtra]

/-- Folding the `pNext` scan adds the sum of the per-entry contributions to
the resolve count and leaves the subpass index unchanged. -/
theorem foldl_countDepthStencilResolve (pNext : List SubpassPNextStruct)
    (subpass : DeviceProfilerSubpass) :
    pNext.foldl countDepthStencilResolve subpass =
      { subpass with m_ResolveCount :=
          subpass.m_ResolveCount + (pNext.map dsrExtra).sum } := by
  induction pNext generalizing subpass with
  | nil => simp
  | cons e rest ih =>
    simp only [List.foldl_cons, countDepthStencilResolve_eq, ih,
      List.map_cons, List.sum_cons]
    congr 1
    omega

/-- Folding the resolve-attachment scan over any list adds the number of
non-`UNUSED` entries. -/
theorem foldl_resolveAttachments (refs : List VkAttachmentReference2)
    (subpass : DeviceProfilerSubpass) :
    refs.foldl
      (fun sp ref =>
        if ref.attachment ≠ VK_ATTACHMENT_UNUSED then
          { sp with m_ResolveCount := sp.m_ResolveCount + 1 }
        else sp)
      subpass =
      { subpass with m_ResolveCount := subpass.m_ResolveCount +
          (refs.filter (fun ref => ref.attachment ≠ VK_ATTACHMENT_UNUSED)).length } := by
  induction refs generalizing subpass with
  | nil => simp
  | cons ref rest ih =>
    by_cases h : ref.attachment = VK_ATTACHMENT_UNUSED
    · rw [List.foldl_cons, if_neg (by simp [h]), ih, List.filter_cons,
        if_neg (by simp [h])]
    · rw [List.foldl_cons, if_pos (by simp [h]), ih, List.filter_cons,
        if_pos (by simp [h]), List.length_cons]
      congr 1
      dsimp only
      omega

/-- The base resolve counting adds exactly the number of non-`UNUSED`
resolve attachments. -/
theorem countSubpassAttachmentResolves_eq (subpass : DeviceProfilerSubpass)
    (d : VkSubpassDescription2) :
    CountSubpassAttachmentResolves subpass d =
      { subpass with m_ResolveCount :=
          subpass.m_ResolveCount + numResolvedAttachments d } := by
  cases hres : d.pResolveAttachments with
  | none => simp [CountSubpassAttachmentResolves, numResolvedAttachments, hres]
  | some refs =>
    simp only [CountSubpassAttachmentResolves, numResolvedAttachments, hres]
    rw [foldl_resolveAttachments]

/-- A `pNext` entry that is not the depth-stencil-resolve structure
contributes no resolves. -/
theorem dsrExtra_of_not_dsr (e : SubpassPNextStruct)
    (h : e.isDepthStencilResolve = false) : dsrExtra e = 0 := by
  cases e with
  | depthStencilResolve r => simp [SubpassPNextStruct.isDepthStencilResolve] at h
  | otherStruct s => rfl

/-- C5: each subpass's resolve count equals the number of its resolve
attachments whose index is not `VK_ATTACHMENT_UNUSED`; on the
depth-stencil-resolve path, an enabled depth-stencil resolve attachment
adds exactly one extra resolve when at least one of the depth/stencil
resolve modes is enabled (and they are not independent differing modes),
and exactly two when depth and stencil both resolve with independent,
differing modes. -/
theorem C5_subpass_resolve_counting (subpassIndex : Nat)
    (d : VkSubpassDescription2)
    (dsr : VkSubpassDescriptionDepthStencilResolve)
    (ref : VkAttachmentReference2) :
    ((∀ e ∈ d.pNext, e.isDepthStencilResolve = false) →
      (profileSubpass2 subpassIndex d).m_ResolveCount =
        numResolvedAttachments d) ∧
    (d.pNext = [SubpassPNextStruct.depthStencilResolve dsr] →
     dsr.pDepthStencilResolveAttachment = some ref →
     ref.attachment ≠ VK_ATTACHMENT_UNUSED →
     (((dsr.depthResolveMode ≠ VkResolveModeFlagBits.VK_RESOLVE_MODE_NONE ∨
        dsr.stencilResolveMode ≠ VkResolveModeFlagBits.VK_RESOLVE_MODE_NONE) ∧
       ¬ (dsr.depthResolveMode ≠ VkResolveModeFlagBits.VK_RESOLVE_MODE_NONE ∧
          dsr.stencilResolveMode ≠ VkResolveModeFlagBits.VK_RESOLVE_MODE_NONE ∧
          dsr.stencilResolveMode ≠ dsr.depthResolveMode) →
       (profileSubpass2 subpassIndex d).m_ResolveCount =
         numResolvedAttachments d + 1) ∧
      ((dsr.depthResolveMode ≠ VkResolveModeFlagBits.VK_RESOLVE_MODE_NONE ∧
        dsr.stencilResolveMode ≠ VkResolveModeFlagBits.VK_RESOLVE_MODE_NONE ∧
        dsr.stencilResolveMode ≠ dsr.depthResolveMode) →
       (profileSubpass2 subpassIndex d).m_ResolveCount =
         numResolvedAttachments d + 2))) := by
  have hcount : (profileSubpass2 subpassIndex d).m_ResolveCount =
      numResolvedAttachments d + (d.pNext.map dsrExtra).sum := by
    rw [profileSubpass2, countSubpassAttachmentResolves_eq,
      foldl_countDepthStencilResolve]
    dsimp only
    omega
  constructor
  · intro h
    rw [hcount]
    have hsum : (d.pNext.map dsrExtra).sum = 0 := by
      apply List.sum_eq_zero
      intro x hx
      rcases List.mem_map.mp hx with ⟨e, he, rfl⟩
      exact dsrExtra_of_not_dsr e (h e he)
    omega
  · intro hchain href hused
    constructor
    · rintro ⟨hone, htwo⟩
      rw [hcount, hchain]
      simp only [List.map_cons, List.map_nil, List.sum_cons, List.sum_nil]
      rw [dsrExtra]
      simp only [href, if_pos hused, if_pos hone, if_neg htwo]
      omega
    · intro htwo
      rw [hcount, hchain]
      simp only [List.map_cons, List.map_nil, List.sum_cons, List.sum_nil]
      rw [dsrExtra]
      simp only [href, if_pos hused, if_pos (Or.inl htwo.1), if_pos htwo]
      omega

/-- Witness for C5: a subpass with two color resolve attachments (one of
them `UNUSED`) counts one resolve; adding a depth-stencil-resolve entry
with differing independent modes raises the count to three. -/
theorem C5_subpass_resolve_counting_witness :
    (profileSubpass2 0
      { pResolveAttachments := some [⟨5⟩, ⟨VK_ATTACHMENT_UNUSED⟩],
        pNext := [] }).m_ResolveCount = 1 ∧
    (profileSubpass2 0
      { pResolveAttachments := some [⟨5⟩, ⟨VK_ATTACHMENT_UNUSED⟩],
        pNext := [SubpassPNextStruct.depthStencilResolve
          ⟨VkResolveModeFlagBits.VK_RESOLVE_MODE_AVERAGE_BIT,
           VkResolveModeFlagBits.VK_RESOLVE_MODE_MIN_BIT, some ⟨7⟩⟩] }).m_ResolveCount
      = 3 := by
  constructor
  · have h := (C5_subpass_resolve_counting 0
      { pResolveAttachments := some [⟨5⟩, ⟨VK_ATTACHMENT_UNUSED⟩], pNext := [] }
      ⟨VkResolveModeFlagBits.VK_RESOLVE_MODE_NONE,
       VkResolveModeFlagBits.VK_RESOLVE_MODE_NONE, none⟩ ⟨0⟩).1
      (by intro e he; simp at he)
    rw [h]
    decide
  · have h := ((C5_subpass_resolve_counting 0
      { pResolveAttachments := some [⟨5⟩, ⟨VK_ATTACHMENT_UNUSED⟩],
        pNext := [SubpassPNextStruct.depthStencilResolve
          ⟨VkResolveModeFlagBits.VK_RESOLVE_MODE_AVERAGE_BIT,
           VkResolveModeFlagBits.VK_RESOLVE_MODE_MIN_BIT, some ⟨7⟩⟩] }
      ⟨VkResolveModeFlagBits.VK_RESOLVE_MODE_AVERAGE_BIT,
       VkResolveModeFlagBits.VK_RESOLVE_MODE_MIN_BIT, some ⟨7⟩⟩ ⟨7⟩).2
      rfl rfl (by decide)).2 (by decide)
    rw [h]
    decide

/-- XOR by a fixed value is injective on the left argument. -/
theorem nat_xor_left_injective (c a b : Nat) (h : a ≠ b) :
    a ^^^ c ≠ b ^^^ c := by
  intro hx
  apply h
  have h2 : a ^^^ c ^^^ c = b ^^^ c ^^^ c := by rw [hx]
  rwa [Nat.xor_assoc, Nat.xor_self, Nat.xor_zero, Nat.xor_assoc,
    Nat.xor_self, Nat.xor_zero] at h2

/-- The graphics stage loop is determined by each stage's bit, entry-point
name, and the registered module fingerprint. -/
theorem createShaderTupleStages_congr (reg1 reg2 : ShaderModuleHashRegistry)
    (stages1 stages2 : List VkPipelineShaderStageCreateInfo)
    (h : List.Forall₂ (fun s1 s2 =>
      s1.stage = s2.stage ∧ s1.pName = s2.pName ∧
      shaderModuleHashAt reg1 s1.module = shaderModuleHashAt reg2 s2.module)
      stages1 stages2) :
    ∀ tuple, createShaderTupleStages reg1 stages1 tuple =
      createShaderTupleStages reg2 stages2 tuple := by
  induction h with
  | nil => intro tuple; rfl
  | cons hrel hrest ih =>
    intro tuple
    obtain ⟨hstage, hname, hhash⟩ := hrel
    rw [createShaderTupleStages, createShaderTupleStages, ← hhash, hstage,
      hname]
    cases shaderModuleHashAt reg1 _ with
    | none => rfl
    | some moduleHash => exact ih _

/-- C4 (amended): a `ShaderTuple` computed twice from registered shader
modules with identical content fingerprints and identical entry-point
names is bit-identical, aggregate hash included (graphics and compute
paths); and changing a referenced module's bytes or the entry-point string
changes the compute tuple's aggregate hash whenever the corresponding
32-bit content fingerprint changes. -/
theorem C4_shader_tuple_content_hash
    (reg1 reg2 : ShaderModuleHashRegistry)
    (stages1 stages2 : List VkPipelineShaderStageCreateInfo) :
    (List.Forall₂ (fun s1 s2 =>
        s1.stage = s2.stage ∧ s1.pName = s2.pName ∧
        ∃ code, shaderModuleHashAt reg1 s1.module = some (Fingerprint32 code) ∧
          shaderModuleHashAt reg2 s2.module = some (Fingerprint32 code))
        stages1 stages2 →
      CreateShaderTupleGraphics reg1 stages1 =
        CreateShaderTupleGraphics reg2 stages2) ∧
    (∀ m1 m2 code1 code2 entry,
      Fingerprint32 code1 = Fingerprint32 code2 →
      CreateShaderTupleCompute (CreateShaderModule reg1 m1 code1)
          ⟨VkShaderStageFlagBits.VK_SHADER_STAGE_COMPUTE_BIT, m1, entry⟩ =
        CreateShaderTupleCompute (CreateShaderModule reg2 m2 code2)
          ⟨VkShaderStageFlagBits.VK_SHADER_STAGE_COMPUTE_BIT, m2, entry⟩) ∧
    (∀ m1 m2 code1 code2 entry,
      Fingerprint32 code1 ≠ Fingerprint32 code2 →
      (CreateShaderTupleCompute (CreateShaderModule reg1 m1 code1)
          ⟨VkShaderStageFlagBits.VK_SHADER_STAGE_COMPUTE_BIT, m1, entry⟩).map
          (fun t => t.m_Hash) ≠
        (CreateShaderTupleCompute (CreateShaderModule reg2 m2 code2)
          ⟨VkShaderStageFlagBits.VK_SHADER_STAGE_COMPUTE_BIT, m2, entry⟩).map
          (fun t => t.m_Hash)) ∧
    (∀ m1 m2 code entry1 entry2,
      Fingerprint32 entry1 ≠ Fingerprint32 entry2 →
      (CreateShaderTupleCompute (CreateShaderModule reg1 m1 code)
          ⟨VkShaderStageFlagBits.VK_SHADER_STAGE_COMPUTE_BIT, m1, entry1⟩).map
          (fun t => t.m_Hash) ≠
        (CreateShaderTupleCompute (CreateShaderModule reg2 m2 code)
          ⟨VkShaderStageFlagBits.VK_SHADER_STAGE_COMPUTE_BIT, m2, entry2⟩).map
          (fun t => t.m_Hash)) := by
  refine ⟨?_, ?_, ?_, ?_⟩
  · intro h
    unfold CreateShaderTupleGraphics
    rw [createShaderTupleStages_congr reg1 reg2 stages1 stages2]
    refine List.Forall₂.imp ?_ h
    intro a b hrel
    obtain ⟨h1, h2, code, h3, h4⟩ := hrel
    exact ⟨h1, h2, by rw [h3, h4]⟩
  · intro m1 m2 code1 code2 entry hfp
    simp [CreateShaderTupleCompute, CreateShaderModule, shaderModuleHashAt,
      hfp]
  · intro m1 m2 code1 code2 entry hfp
    simp only [CreateShaderTupleCompute, CreateShaderModule,
      shaderModuleHashAt, if_pos rfl, Option.map_some]
    intro hx
    exact nat_xor_left_injective (Fingerprint32 entry) _ _ hfp
      (Option.some.inj hx)
  · intro m1 m2 code entry1 entry2 hfp
    simp only [CreateShaderTupleCompute, CreateShaderModule,
      shaderModuleHashAt, if_pos rfl, Option.map_some]
    intro hx
    have hx2 : Fingerprint32 code ^^^ Fingerprint32 entry1 =
        Fingerprint32 code ^^^ Fingerprint32 entry2 := Option.some.inj hx
    rw [Nat.xor_comm (Fingerprint32 code) (Fingerprint32 entry1),
      Nat.xor_comm (Fingerprint32 code) (Fingerprint32 entry2)] at hx2
    exact nat_xor_left_injective (Fingerprint32 code) _ _ hfp hx2

/-- Witness for C4 (amended): concrete graphics tuples over two distinct
module handles registered with the same bytes coincide, and compute tuples
over module contents (or entry points) with different fingerprints have
different aggregate hashes. -/
theorem C4_shader_tuple_content_hash_witness :
    (CreateShaderTupleGraphics (CreateShaderModule [] 1 [1, 2, 3])
        [⟨VkShaderStageFlagBits.VK_SHADER_STAGE_VERTEX_BIT, 1, [109, 97, 105, 110]⟩] =
      CreateShaderTupleGraphics (CreateShaderModule [] 2 [1, 2, 3])
        [⟨VkShaderStageFlagBits.VK_SHADER_STAGE_VERTEX_BIT, 2, [109, 97, 105, 110]⟩]) ∧
    ((CreateShaderTupleCompute (CreateShaderModule [] 1 [0])
        ⟨VkShaderStageFlagBits.VK_SHADER_STAGE_COMPUTE_BIT, 1, [109, 97, 105, 110]⟩).map
        (fun t => t.m_Hash) ≠
      (CreateShaderTupleCompute (CreateShaderModule [] 1 [1])
        ⟨VkShaderStageFlagBits.VK_SHADER_STAGE_COMPUTE_BIT, 1, [109, 97, 105, 110]⟩).map
        (fun t => t.m_Hash)) ∧
    ((CreateShaderTupleCompute (CreateShaderModule [] 1 [0])
        ⟨VkShaderStageFlagBits.VK_SHADER_STAGE_COMPUTE_BIT, 1, [109, 97, 105, 110]⟩).map
        (fun t => t.m_Hash) ≠
      (CreateShaderTupleCompute (CreateShaderModule [] 1 [0])
        ⟨VkShaderStageFlagBits.VK_SHADER_STAGE_COMPUTE_BIT, 1, [110, 111]⟩).map
        (fun t => t.m_Hash)) :=
  ⟨(C4_shader_tuple_content_hash (CreateShaderModule [] 1 [1, 2, 3])
      (CreateShaderModule [] 2 [1, 2, 3])
      [⟨VkShaderStageFlagBits.VK_SHADER_STAGE_VERTEX_BIT, 1, [109, 97, 105, 110]⟩]
      [⟨VkShaderStageFlagBits.VK_SHADER_STAGE_VERTEX_BIT, 2, [109, 97, 105, 110]⟩]).1
      (List.Forall₂.cons ⟨rfl, rfl, ⟨[1, 2, 3], by decide, by decide⟩⟩
        List.Forall₂.nil),
   (C4_shader_tuple_content_hash [] [] [] []).2.2.1 1 1 [0] [1]
      [109, 97, 105, 110] (by decide),
   (C4_shader_tuple_content_hash [] [] [] []).2.2.2 1 1 [0]
      [109, 97, 105, 110] [110, 111] (by decide)⟩

/-- C4 counterexample: the byte strings "costarring" and "liquid" are
distinct shader-module contents with the same 32-bit fingerprint, so
changing a referenced module's bytes from one to the other leaves the
whole compute `ShaderTuple` — its aggregate hash included — unchanged. -/
theorem C4_shader_tuple_hash_counterexample :
    ([99, 111, 115, 116, 97, 114, 114, 105, 110, 103] : List Nat) ≠
      [108, 105, 113, 117, 105, 100] ∧
    CreateShaderTupleCompute
        (CreateShaderModule [] 1 [99, 111, 115, 116, 97, 114, 114, 105, 110, 103])
        ⟨VkShaderStageFlagBits.VK_SHADER_STAGE_COMPUTE_BIT, 1, [109, 97, 105, 110]⟩ =
      CreateShaderTupleCompute
        (CreateShaderModule [] 1 [108, 105, 113, 117, 105, 100])
        ⟨VkShaderStageFlagBits.VK_SHADER_STAGE_COMPUTE_BIT, 1, [109, 97, 105, 110]⟩ := by
  exact ⟨by decide, by decide⟩

/-- Free-by-pool loop characterization: the wrappers of the pool are
appended to the aggregator's contributions in registry order (updating the
running total) and removed from the registry; everything else is kept. -/
theorem freeCommandBuffersLoop_eq (commandPool : Nat)
    (reg : List (Nat × ProfilerCommandBuffer)) (agg : ProfilerDataAggregator) :
    freeCommandBuffersLoop agg commandPool reg =
      ({ agg with m_Data := { agg.m_Data with
          m_Contributions := agg.m_Data.m_Contributions ++
            (reg.filter (fun e => e.2.GetCommandPool = commandPool)).map
              (fun e => (e.1, e.2.GetData))
          m_TotalTicks := agg.m_Data.m_TotalTicks +
            ((reg.filter (fun e => e.2.GetCommandPool = commandPool)).map
              (fun e => e.2.GetData)).sum } },
       reg.filter (fun e => ¬ e.2.GetCommandPool = commandPool)) := by
  induction reg generalizing agg with
  | nil => simp [freeCommandBuffersLoop]
  | cons entry rest ih =>
    by_cases h : entry.2.GetCommandPool = commandPool
    · rw [freeCommandBuffersLoop, if_pos h, ih]
      simp [ProfilerDataAggregator.AppendData, h, List.filter_cons,
        Nat.add_assoc]
    · rw [freeCommandBuffersLoop, if_neg h, ih, List.filter_cons,
        List.filter_cons]
      simp [h]

/-- C1: freeing a command pool removes exactly the command-buffer wrappers
whose owning pool matches (wrappers of other pools are kept, in order),
and each removed wrapper's captured data is appended to the data
aggregator's running frame totals, so it still contributes to the current
frame's aggregate; the aggregator's pending submits are untouched. -/
theorem C1_free_command_buffers_by_pool (p : DeviceProfiler)
    (commandPool : Nat) :
    (FreeCommandBuffersByPool p commandPool).m_CommandBuffers =
      p.m_CommandBuffers.filter
        (fun e => ¬ e.2.GetCommandPool = commandPool) ∧
    (FreeCommandBuffersByPool p commandPool).m_DataAggregator.m_Data.m_Contributions =
      p.m_DataAggregator.m_Data.m_Contributions ++
        (p.m_CommandBuffers.filter
          (fun e => e.2.GetCommandPool = commandPool)).map
          (fun e => (e.1, e.2.GetData)) ∧
    (FreeCommandBuffersByPool p commandPool).m_DataAggregator.m_Data.m_TotalTicks =
      p.m_DataAggregator.m_Data.m_TotalTicks +
        ((p.m_CommandBuffers.filter
          (fun e => e.2.GetCommandPool = commandPool)).map
          (fun e => e.2.GetData)).sum ∧
    (FreeCommandBuffersByPool p commandPool).m_DataAggregator.m_PendingSubmits =
      p.m_DataAggregator.m_PendingSubmits := by
  unfold FreeCommandBuffersByPool
  rw [freeCommandBuffersLoop_eq]
  exact ⟨rfl, rfl, rfl, rfl⟩

/-- Marking one handle keeps every registered handle registered. -/
theorem containsCommandBuffer_submitCommandBuffer
    (reg : CommandBufferRegistry) (c k : Nat) :
    containsCommandBuffer (submitCommandBuffer reg c) k =
      containsCommandBuffer reg k := by
  induction reg with
  | nil => rfl
  | cons entry rest ih =>
    by_cases h : entry.1 = c <;>
      simp [containsCommandBuffer, submitCommandBuffer, h] <;>
      simp [containsCommandBuffer, submitCommandBuffer] at ih <;>
      rw [ih]

/-- `Submit()` is idempotent on a wrapper. -/
theorem submit_idempotent (cb : ProfilerCommandBuffer) :
    cb.Submit.Submit = cb.Submit := rfl

/-- Marking one handle is marking via a singleton reference list. -/
theorem submitCommandBuffer_eq_markReferenced
    (reg : CommandBufferRegistry) (c : Nat) :
    submitCommandBuffer reg c = markReferenced [c] reg := by
  unfold submitCommandBuffer markReferenced
  apply List.map_congr_left
  intro entry _
  by_cases h : entry.1 = c <;> simp [h]

/-- Marking compositions concatenate the reference lists. -/
theorem markReferenced_markReferenced (a b : List Nat)
    (reg : CommandBufferRegistry) :
    markReferenced b (markReferenced a reg) = markReferenced (a ++ b) reg := by
  unfold markReferenced
  rw [List.map_map]
  apply List.map_congr_left
  intro entry _
  by_cases ha : entry.1 ∈ a
  · by_cases hb : entry.1 ∈ b <;>
      simp [ha, hb, Function.comp, submit_idempotent]
  · by_cases hb : entry.1 ∈ b <;> simp [ha, hb, Function.comp]

/-- Marking preserves the registered handles. -/
theorem containsCommandBuffer_markReferenced (referenced : List Nat)
    (reg : CommandBufferRegistry) (k : Nat) :
    containsCommandBuffer (markReferenced referenced reg) k =
      containsCommandBuffer reg k := by
  induction reg with
  | nil => rfl
  | cons entry rest ih =>
    by_cases h : entry.1 ∈ referenced <;>
      simp [containsCommandBuffer, markReferenced, h] <;>
      simp [containsCommandBuffer, markReferenced] at ih <;>
      rw [ih]

/-- The inner marking loop succeeds on registered handles and is the
referenced-handle marking. -/
theorem postSubmitMarkLoop_eq (cbs : List Nat) (reg : CommandBufferRegistry)
    (h : ∀ c ∈ cbs, containsCommandBuffer reg c = true) :
    postSubmitMarkLoop reg cbs = some (markReferenced cbs reg) := by
  induction cbs generalizing reg with
  | nil =>
    simp [postSubmitMarkLoop, markReferenced]
  | cons c rest ih =>
    rw [postSubmitMarkLoop, if_pos (h c (List.mem_cons_self c rest))]
    rw [ih (submitCommandBuffer reg c) (fun c2 hc2 => by
      rw [containsCommandBuffer_submitCommandBuffer]
      exact h c2 (List.mem_cons_of_mem c hc2))]
    rw [submitCommandBuffer_eq_markReferenced,
      markReferenced_markReferenced]
    rfl

/-- The outer submit loop succeeds when every referenced handle is
registered, wraps the submit infos in order, and marks exactly the
referenced wrappers. -/
theorem postSubmitLoop_eq (pSubmitInfo : List VkSubmitInfo)
    (reg : CommandBufferRegistry)
    (h : ∀ si ∈ pSubmitInfo, ∀ c ∈ si.pCommandBuffers,
      containsCommandBuffer reg c = true) :
    postSubmitLoop reg pSubmitInfo =
      some (markReferenced (pSubmitInfo.flatMap (fun si => si.pCommandBuffers)) reg,
        pSubmitInfo.map (fun si => ⟨si.pCommandBuffers⟩)) := by
  induction pSubmitInfo generalizing reg with
  | nil =>
    simp [postSubmitLoop, markReferenced]
  | cons si rest ih =>
    rw [postSubmitLoop,
      postSubmitMarkLoop_eq si.pCommandBuffers reg
        (h si (List.mem_cons_self si rest))]
    dsimp only
    rw [ih (markReferenced si.pCommandBuffers reg) (fun si2 hsi2 c hc => by
      rw [containsCommandBuffer_markReferenced]
      exact h si2 (List.mem_cons_of_mem si hsi2) c hc)]
    simp only [Option.map_some, markReferenced_markReferenced,
      List.flatMap_cons, List.map_cons]
    rfl

/-- C6: when every submitted command buffer is registered,
`PostSubmitCommandBuffers` succeeds; in submit-wait mode the issued GPU
calls begin with a zero-command dummy submission signaling the profiler's
own fence followed by a no-timeout wait on it (before anything else, and
data is only aggregated afterwards); in all sync modes the command buffers
are wrapped into a `DeviceProfilerSubmitBatch` preserving submission order
(submits in order, command buffers inside each submit in order), every
referenced wrapper is marked `Submit()`, the batch is handed to the
aggregator, and the vendor performance-configuration handle, if held, is
released (a release call is issued) and cleared. -/
theorem C6_post_submit_command_buffers (p : DeviceProfiler) (queue : Nat)
    (pSubmitInfo : List VkSubmitInfo)
    (h : ∀ si ∈ pSubmitInfo, ∀ c ∈ si.pCommandBuffers,
      containsCommandBuffer p.m_CommandBuffers c = true) :
    PostSubmitCommandBuffers p queue pSubmitInfo =
      some
        ({ p with
            m_CommandBuffers :=
              markReferenced (pSubmitInfo.flatMap (fun si => si.pCommandBuffers))
                p.m_CommandBuffers
            m_DataAggregator :=
              (let aggregator := p.m_DataAggregator.AppendSubmit
                { m_Handle := queue
                  m_Submits := pSubmitInfo.map (fun si => ⟨si.pCommandBuffers⟩) }
               if p.m_Config.m_SyncMode = VK_PROFILER_SYNC_MODE_SUBMIT_EXT then
                 aggregator.Aggregate
                   (markReferenced
                     (pSubmitInfo.flatMap (fun si => si.pCommandBuffers))
                     p.m_CommandBuffers)
               else aggregator)
            m_PerformanceConfigurationINTEL := none },
         (if p.m_Config.m_SyncMode = VK_PROFILER_SYNC_MODE_SUBMIT_EXT then
            [ProfilerApiCall.queueSubmit queue 0 p.m_SubmitFence,
             ProfilerApiCall.waitForFences p.m_SubmitFence UINT64_MAX,
             ProfilerApiCall.resetFences p.m_SubmitFence]
          else []) ++
          (match p.m_PerformanceConfigurationINTEL with
           | some handle =>
             [ProfilerApiCall.releasePerformanceConfigurationINTEL handle]
           | none => [])) := by
  unfold PostSubmitCommandBuffers
  rw [postSubmitLoop_eq pSubmitInfo p.m_CommandBuffers h]

/-- Witness for C6: a profiler in submit-wait mode holding performance
configuration 9, with one registered command buffer 11 submitted in a
single batch: the dummy submit/wait/reset precede the release call, the
wrapper is marked submitted, and the batch reaches the aggregator. -/
theorem C6_post_submit_command_buffers_witness :
    PostSubmitCommandBuffers
      { m_Config := { m_SyncMode := VK_PROFILER_SYNC_MODE_SUBMIT_EXT }
        m_CommandBuffers := [(11, { m_CommandPool := 3, m_CommandBuffer := 11 })]
        m_SubmitFence := 4
        m_PerformanceConfigurationINTEL := some 9 }
      1 [{ pCommandBuffers := [11] }] =
    some
      ({ m_Config := { m_SyncMode := VK_PROFILER_SYNC_MODE_SUBMIT_EXT }
         m_CommandBuffers := [(11,
           { m_CommandPool := 3, m_CommandBuffer := 11, m_Submitted := true })]
         m_DataAggregator :=
           { m_PendingSubmits := []
             m_Data :=
               { m_Contributions := [(11, 0)]
                 m_Submits := [{ m_Handle := 1
                                 m_Submits := [{ m_pCommandBuffers := [11] }] }]
                 m_TotalTicks := 0 } }
         m_SubmitFence := 4
         m_PerformanceConfigurationINTEL := none },
       [ProfilerApiCall.queueSubmit 1 0 4,
        ProfilerApiCall.waitForFences 4 UINT64_MAX,
        ProfilerApiCall.resetFences 4,
        ProfilerApiCall.releasePerformanceConfigurationINTEL 9]) := by
  rw [C6_post_submit_command_buffers
    { m_Config := { m_SyncMode := VK_PROFILER_SYNC_MODE_SUBMIT_EXT }
      m_CommandBuffers := [(11, { m_CommandPool := 3, m_CommandBuffer := 11 })]
      m_SubmitFence := 4
      m_PerformanceConfigurationINTEL := some 9 }
    1 [{ pCommandBuffers := [11] }] (by decide)]
  decide

/-- A successful `PostSubmitCommandBuffers` never touches the published
frame data. -/
theorem postSubmit_preserves_published_data (p : DeviceProfiler)
    (queue : Nat) (pSubmitInfo : List VkSubmitInfo)
    (p2 : DeviceProfiler) (calls : List ProfilerApiCall)
    (h : PostSubmitCommandBuffers p queue pSubmitInfo = some (p2, calls)) :
    p2.m_Data = p.m_Data := by
  unfold PostSubmitCommandBuffers at h
  cases hloop : postSubmitLoop p.m_CommandBuffers pSubmitInfo with
  | none => rw [hloop] at h; exact absurd h (by simp)
  | some result =>
    rw [hloop] at h
    simp only [Option.some.injEq, Prod.mk.injEq] at h
    rw [← h.1]

/-- C7: `FinishFrame` increments the current-frame counter by exactly one,
publishes the aggregator's merged snapshot (in present-wait mode after a
final aggregation) as the new current frame data with the memory
statistics and CPU statistics (frame time, FPS, per-registry access
latency) attached, resets the aggregator exactly once (the new aggregator
is the cleared initial state), and the published data is unaffected by any
submission arriving after the call. -/
theorem C7_finish_frame (p : DeviceProfiler) :
    (FinishFrame p).1.m_CurrentFrame = p.m_CurrentFrame + 1 ∧
    (FinishFrame p).1.m_DataAggregator = ({} : ProfilerDataAggregator) ∧
    (FinishFrame p).1.m_Data =
      { (if p.m_Config.m_SyncMode = VK_PROFILER_SYNC_MODE_PRESENT_EXT then
           p.m_DataAggregator.Aggregate p.m_CommandBuffers
         else p.m_DataAggregator).GetAggregatedData with
        m_Memory := p.m_MemoryData
        m_CPU :=
          { m_TimeNs := p.m_CpuTimeNs
            m_FramesPerSec := p.m_CpuFps
            m_CommandBufferAccessTimeNs := p.m_CommandBufferAccessTimeNs
            m_PipelineAccessTimeNs := p.m_PipelineAccessTimeNs
            m_RenderPassAccessTimeNs := p.m_RenderPassAccessTimeNs
            m_ShaderModuleAccessTimeNs := p.m_ShaderModuleAccessTimeNs } } ∧
    (∀ queue pSubmitInfo p2 calls,
      PostSubmitCommandBuffers (FinishFrame p).1 queue pSubmitInfo =
        some (p2, calls) →
      p2.m_Data = (FinishFrame p).1.m_Data) := by
  refine ⟨?_, ?_, ?_, ?_⟩
  · by_cases hmode :
      p.m_Config.m_SyncMode = VK_PROFILER_SYNC_MODE_PRESENT_EXT <;>
      simp [FinishFrame, hmode]
  · by_cases hmode :
      p.m_Config.m_SyncMode = VK_PROFILER_SYNC_MODE_PRESENT_EXT <;>
      simp [FinishFrame, hmode, ProfilerDataAggregator.Reset]
  · by_cases hmode :
      p.m_Config.m_SyncMode = VK_PROFILER_SYNC_MODE_PRESENT_EXT <;>
      simp [FinishFrame, hmode]
  · intro queue pSubmitInfo p2 calls hcall
    exact postSubmit_preserves_published_data _ queue pSubmitInfo p2 calls hcall

/-- Witness for C7: the default-initialized profiler finishes its frame
with counter 1, and a subsequent submission leaves the published data
untouched. -/
theorem C7_finish_frame_witness :
    (FinishFrame ({} : DeviceProfiler)).1.m_CurrentFrame = 0 + 1 ∧
    ({ m_CurrentFrame := 1
       m_DataAggregator :=
         { m_PendingSubmits := [{ m_Handle := 1, m_Submits := [] }] } } :
      DeviceProfiler).m_Data = (FinishFrame ({} : DeviceProfiler)).1.m_Data :=
  ⟨(C7_finish_frame {}).1,
   (C7_finish_frame {}).2.2.2 1 [] _ [] (by decide)⟩

/-- C8: `Aggregate()` is idempotent: aggregating twice in a row, with no
intervening `AppendSubmit` or `AppendData` calls (and the same command
buffer registry in view), leaves `GetAggregatedData()` exactly as after
the first aggregation. -/
theorem C8_aggregate_idempotent (agg : ProfilerDataAggregator)
    (registry : CommandBufferRegistry) :
    ((agg.Aggregate registry).Aggregate registry).GetAggregatedData =
      (agg.Aggregate registry).GetAggregatedData := by
  simp [ProfilerDataAggregator.Aggregate,
    ProfilerDataAggregator.GetAggregatedData]

/-- Sibling well-formedness, elementwise. -/
theorem childrenWithin_iff (b e : Nat) (cs : List Region) :
    childrenWithin b e cs = true ↔
      ∀ c ∈ cs, b < c.beginTimestamp ∧ c.endTimestamp < e ∧ c.wf = true := by
  induction cs with
  | nil => simp [childrenWithin]
  | cons c cs ih =>
    simp only [childrenWithin, Bool.and_eq_true, decide_eq_true_eq, ih,
      List.mem_cons]
    constructor
    · rintro ⟨⟨⟨h1, h2⟩, h3⟩, h4⟩ x hx
      rcases hx with rfl | hx
      · exact ⟨h1, h2, h3⟩
      · exact h4 x hx
    · intro hall
      exact ⟨⟨⟨(hall c (Or.inl rfl)).1, (hall c (Or.inl rfl)).2.1⟩,
        (hall c (Or.inl rfl)).2.2⟩, fun x hx => hall x (Or.inr hx)⟩

/-- Well-formedness of a node, unfolded. -/
theorem region_wf_node (b e : Nat) (cs : List Region) :
    Region.wf (Region.node b e cs) = true ↔
      b ≤ e ∧ ∀ c ∈ cs, b < c.beginTimestamp ∧ c.endTimestamp < e ∧
        c.wf = true := by
  simp [Region.wf, childrenWithin_iff]

/-- Closing the innermost open region into its parent at the current clock
preserves the frame invariant at the advanced clock. -/
theorem closeInto_inv (f parent : OpenRegion) (t : Nat)
    (rest : List OpenRegion) (h : FramesInv t (f :: parent :: rest)) :
    FramesInv (t + 1) (closeInto f t parent :: rest) := by
  obtain ⟨hf, hfc, hp, hpc, hrest⟩ := h
  unfold FramesInv closeInto
  dsimp only
  refine ⟨Nat.lt_succ_of_lt (Nat.lt_trans hp hf), ?_, hrest⟩
  intro c hc
  simp only [List.mem_append, List.mem_singleton] at hc
  rcases hc with hc | rfl
  · obtain ⟨h1, h2, h3⟩ := hpc c hc
    exact ⟨h1, Nat.lt_succ_of_lt (Nat.lt_trans h2 hf), h3⟩
  · refine ⟨hp, Nat.lt_succ_self t, ?_⟩
    rw [region_wf_node]
    exact ⟨Nat.le_of_lt hf, hfc⟩

/-- Every region-stack step preserves the recorder invariant. -/
theorem recordStep_inv (s : RecorderState) (op : RecOp)
    (h : RecorderInv s) : RecorderInv (recordStep s op) := by
  obtain ⟨clock, stack, root⟩ := s
  cases op with
  | push => exact ⟨Nat.lt_succ_self clock, by simp, h⟩
  | pop =>
    match stack with
    | [] => exact h
    | [f] => exact closeInto_inv f root clock [] h
    | f :: g :: rest => exact closeInto_inv f g clock (rest ++ [root]) h

/-- The recorder invariant holds after any sequence of region-stack
steps. -/
theorem foldl_recordStep_inv (ops : List RecOp) (s : RecorderState)
    (h : RecorderInv s) : RecorderInv (ops.foldl recordStep s) := by
  induction ops generalizing s with
  | nil => exact h
  | cons op rest ih => exact ih (recordStep s op) (recordStep_inv s op h)

/-- Defensively closing all dangling open regions yields a well-formed
tree from any invariant-satisfying recorder state. -/
theorem closeAll_wf (t : Nat) (stack : List OpenRegion)
    (root : OpenRegion) :
    FramesInv t (stack ++ [root]) → (closeAll t stack root).wf = true := by
  induction t, stack, root using closeAll.induct with
  | case1 t root =>
    intro h
    obtain ⟨h1, h2, _⟩ := h
    rw [closeAll, region_wf_node]
    exact ⟨Nat.le_of_lt h1, h2⟩
  | case2 t root f ih =>
    intro h
    rw [closeAll]
    exact ih (closeInto_inv f root t [] h)
  | case3 t root f g rest ih =>
    intro h
    rw [closeAll]
    exact ih (closeInto_inv f g t (rest ++ [root]) h)

/-- C9: for every valid region-stack sequence, the finalized region tree
of a `Begin` … `End` recording session is well-formed: every region's
resolved end timestamp is at least its begin timestamp, and every child
region's `[begin, end]` interval lies strictly inside its parent's open
interval. -/
theorem C9_region_tree_wf (ops : List RecOp) (h : ValidOps ops = true) :
    (record ops).wf = true := by
  have hbegin : RecorderInv recorderBegin :=
    ⟨Nat.zero_lt_one, by simp [recorderBegin], trivial⟩
  have hinv := foldl_recordStep_inv ops recorderBegin hbegin
  exact closeAll_wf _ _ _ hinv

/-- Witness for C9: the valid sequence push-push-pop-pop (for example a
render pass containing one drawcall) records a well-formed tree. -/
theorem C9_region_tree_wf_witness :
    ValidOps [RecOp.push, RecOp.push, RecOp.pop, RecOp.pop] = true ∧
    (record [RecOp.push, RecOp.push, RecOp.pop, RecOp.pop]).wf = true :=
  ⟨by decide,
   C9_region_tree_wf [RecOp.push, RecOp.push, RecOp.pop, RecOp.pop]
     (by decide)⟩
